import Mathlib

/-!
Shallow embedding of the trading agent in `pnl.py` of the
Aegizz/OptiverTradingGame repository, together with theorems checking the
specification's claims against it.

Conventions of the embedding:
* Python floats are modelled as rationals (`ℚ`); `np.tanh` is a transcendental
  function on reals, so it is passed as an explicit function parameter
  `tanh : ℚ → ℚ` and every theorem quantifies over it (the theorems therefore
  hold for any value `np.tanh` can produce).
* Python's built-in `round` (round-half-to-even) is embedded as `py_round`.
* `collections.deque(maxlen=n)` is a list with FIFO eviction (`dequeAppend`).
* Python dictionaries read with `.get(key, default)` become structures with
  `Option` fields read through `Option.getD`.
* The mutable global `shared_state` becomes explicit state passing: functions
  that mutate it take a `SharedState` and return the updated one, and
  `time.time()` becomes an explicit `ℚ` argument.
-/

namespace TradingGame

/-- HISTORY_SIZE = 20, the maxlen of both deques in `SharedState.__init__`. -/
def HISTORY_SIZE : ℕ := 20

/-- Append to a `deque(maxlen=maxlen)`: the element goes to the back and, if
capacity is exceeded, the oldest elements are dropped from the front. -/
def dequeAppend (maxlen : ℕ) (l : List α) (x : α) : List α :=
  let l2 := l ++ [x]
  l2.drop (l2.length - maxlen)

/-- Python's built-in `round`: round half to even (banker's rounding). -/
def py_round (q : ℚ) : ℤ :=
  let f : ℤ := ⌊q⌋
  let frac := q - (f : ℚ)
  if frac < 1/2 then f
  else if 1/2 < frac then f + 1
  else if f % 2 = 0 then f else f + 1

/-- The `strategy_params` dictionary of `SharedState`. -/
structure StrategyParams where
  momentum_weight : ℚ
  forecast_weight : ℚ
  strong_momentum_threshold : ℚ
  medium_momentum_threshold : ℚ
  aggressive_factor : ℚ
  deriving DecidableEq

/-- One `signal_data` record appended to `shared_state.trade_history` by
`determine_trade_volume`. -/
structure TradeSignalRecord where
  conn_id : ℕ
  timestamp : ℚ
  momentum : ℚ
  forecast : ℚ
  combined_signal : ℚ
  trade_volume : ℤ
  position : ℤ
  deriving DecidableEq

/-- One `perf_data` record appended to `shared_state.performance_history` by
the state-event branch of `handle_connection`. -/
structure PerformanceRecord where
  conn_id : ℕ
  timestamp : ℚ
  momentum : ℚ
  forecast : ℚ
  position : ℤ
  trade_volume : ℤ
  pnl_change : ℚ
  price : ℚ
  total_pnl : ℚ
  deriving DecidableEq

/-- The fields of the global `shared_state` touched by the embedded functions
(the asyncio lock itself has no data content; `connection_performance` is kept
separately per connection as `ConnPerf`). -/
structure SharedState where
  strategy_params : StrategyParams
  trade_history : List TradeSignalRecord
  performance_history : List PerformanceRecord
  last_optimization : ℚ
  optimization_interval : ℚ
  deriving DecidableEq

/-- `SharedState.__init__`, with the process start time `t0` passed in for
`time.time()`. -/
def SharedState.init (t0 : ℚ) : SharedState :=
  { strategy_params :=
      { momentum_weight := 0.6
        forecast_weight := 0.4
        strong_momentum_threshold := 10
        medium_momentum_threshold := 5
        aggressive_factor := 1.5 }
    trade_history := []
    performance_history := []
    last_optimization := t0
    optimization_interval := 30 }

/-- One entry of `shared_state.connection_performance`. -/
structure ConnPerf where
  last_pnl : ℚ
  trades_made : ℕ
  successful_trades : ℕ
  deriving DecidableEq

/-- `determine_trade_volume(forecast, momentum, position, position_limit,
conn_id, params)`. Besides the returned volume it appends a signal record to
`shared_state.trade_history`, so the embedding returns the updated shared
state as well. `now` stands for `time.time()`. -/
def determine_trade_volume (tanh : ℚ → ℚ) (forecast momentum : ℚ)
    (position position_limit : ℤ) (conn_id : ℕ) (now : ℚ)
    (params : StrategyParams) (shared : SharedState) : ℤ × SharedState :=
  let momentum_weight := params.momentum_weight
  let forecast_weight := params.forecast_weight
  let aggressive_factor := params.aggressive_factor
  let momentum_signal := tanh (momentum / 10)
  let forecast_signal := tanh (forecast * 2)
  let combined_signal :=
    momentum_signal * momentum_weight + forecast_signal * forecast_weight
  let raw_volume := combined_signal * 3 * aggressive_factor
  let trade_volume : ℤ :=
    if raw_volume > 0 then
      min (max 0 (py_round raw_volume)) (position_limit - position)
    else if raw_volume < 0 then
      max (-(position + position_limit)) (min 0 (py_round raw_volume))
    else 0
  let signal_data : TradeSignalRecord :=
    { conn_id := conn_id
      timestamp := now
      momentum := momentum
      forecast := forecast
      combined_signal := combined_signal
      trade_volume := trade_volume
      position := position }
  (trade_volume,
    { shared with
        trade_history := dequeAppend HISTORY_SIZE shared.trade_history signal_data })

/-- `statistics.mean` on a list of rationals (sum divided by length). -/
def statisticsMean (l : List ℚ) : ℚ := l.sum / l.length

/-- `optimize_strategy()`, with `current_time` standing for `time.time()` and
the global `shared_state` passed and returned explicitly. The body runs under
`shared_state.lock` in the source. -/
def optimize_strategy (current_time : ℚ) (s : SharedState) : SharedState :=
  if current_time - s.last_optimization < s.optimization_interval ∨
      s.performance_history.length < 5 then
    s
  else
    let s1 := { s with last_optimization := current_time }
    if s1.performance_history.isEmpty then s1
    else
      let recent_performances := s1.performance_history
      let avg_profit :=
        statisticsMean (recent_performances.map (fun p => p.pnl_change))
      if avg_profit > 5 then
        let qualifying := recent_performances.filter
          (fun p => p.pnl_change > 0 ∧ p.trade_volume ≠ 0)
        let momentum_correlations := qualifying.map
          (fun p => if |p.momentum| > |p.forecast| then (1 : ℚ) else 0.5)
        let forecast_correlations := qualifying.map
          (fun p => if |p.momentum| > |p.forecast| then (0.5 : ℚ) else 1)
        if momentum_correlations ≠ [] ∧ forecast_correlations ≠ [] then
          let avg_momentum_corr := statisticsMean momentum_correlations
          let avg_forecast_corr := statisticsMean forecast_correlations
          let total := avg_momentum_corr + avg_forecast_corr
          { s1 with
              strategy_params :=
                { s1.strategy_params with
                    momentum_weight := avg_momentum_corr / total
                    forecast_weight := avg_forecast_corr / total
                    aggressive_factor :=
                      min 2 (s1.strategy_params.aggressive_factor + 0.1) } }
        else s1
      else if avg_profit < -5 then
        { s1 with
            strategy_params :=
              { s1.strategy_params with
                  momentum_weight := 0.5
                  forecast_weight := 0.5
                  aggressive_factor :=
                    max 1 (s1.strategy_params.aggressive_factor - 0.2) } }
      else s1

/-- The `data` object of an inbound envelope: a JSON dictionary whose keys are
read with `.get`, so every field is optional. Only the keys actually read by
`handle_connection` appear. -/
structure EnvData where
  player_id : Option String
  price_forecast : Option ℚ
  momentum : Option ℚ
  position : Option ℤ
  position_limit : Option ℤ
  price : Option ℚ
  pnl : Option ℚ
  impact : Option ℤ
  deriving DecidableEq

/-- Messages the receive loop of `handle_connection` can send while handling
one inbound message. -/
inductive OutMessage where
  | startCmd
  | trade (volume : ℤ)
  | skipCmd
  deriving DecidableEq

/-- Which branch of the `if`/`elif` chain of the receive loop (lines 199-293
of `pnl.py`) an inbound envelope selects, as a function of its `event` string
and of whether a `data` key is present. -/
inductive Handler where
  | handshake
  | stateUpdate
  | gameEnd
  | puzzle
  | ignored
  deriving DecidableEq

/-- The dispatch performed by the `if`/`elif` chain of the receive loop:
`connection`, `state`, `finish` and `puzzle` are tested in that order, each
together with `"data" in response_data`; everything else matches no branch. -/
def dispatch (event : String) (has_data : Bool) : Handler :=
  if event = "connection" ∧ has_data then Handler.handshake
  else if event = "state" ∧ has_data then Handler.stateUpdate
  else if event = "finish" ∧ has_data then Handler.gameEnd
  else if event = "puzzle" ∧ has_data then Handler.puzzle
  else Handler.ignored

/-- Outcome of handling one inbound message: either keep receiving, or leave
the receive loop (the `finish` branch raises to reach the reconnection code,
carrying the final PnL it just recorded). -/
inductive LoopResult where
  | continueLoop
  | terminate (final_pnl : ℚ)
  deriving DecidableEq

/-- The `finish` branch (lines 266-271): read `data.get("pnl", 0)` as the
final PnL and leave the receive loop towards the reconnection code. -/
def handle_finish (data : EnvData) : LoopResult :=
  LoopResult.terminate (data.pnl.getD 0)

/-- `handle_puzzle_impact(puzzle_data)`: return the `impact` field (default 0)
unchanged when it is positive or negative, and 0 otherwise. -/
def handle_puzzle_impact (puzzle_data : EnvData) : ℤ :=
  let impact := puzzle_data.impact.getD 0
  if impact > 0 then impact
  else if impact < 0 then impact
  else 0

/-- The `puzzle` branch (lines 274-293): if the impact is nonzero send a trade
of volume `3` (positive impact) or `-3` (negative impact), then always send
the skip message. The return value lists the sent messages in order. -/
def handle_puzzle (puzzle_data : EnvData) : List OutMessage :=
  let puzzle_impact := handle_puzzle_impact puzzle_data
  (if puzzle_impact ≠ 0 then
    [OutMessage.trade (if puzzle_impact > 0 then 3 else -3)]
  else []) ++ [OutMessage.skipCmd]

/-- The trade volumes among a list of sent messages, in order. -/
def sent_trade_volumes (msgs : List OutMessage) : List ℤ :=
  msgs.filterMap (fun m =>
    match m with
    | OutMessage.trade v => some v
    | _ => none)

/-- The `state` branch (lines 205-263): read the market snapshot with its
`.get` defaults, snapshot the parameters under the lock, compute the trade
volume, update the connection's `last_pnl` baseline, append a performance
record only when `trades_made > 0`, send the trade (incrementing
`trades_made`) when the volume is nonzero, and finally run
`optimize_strategy`. Returns the updated connection entry, the updated shared
state, and the sent messages. -/
def handle_state_event (tanh : ℚ → ℚ) (now : ℚ) (conn_id : ℕ) (d : EnvData)
    (cp : ConnPerf) (shared : SharedState) :
    ConnPerf × SharedState × List OutMessage :=
  let forecast := d.price_forecast.getD 0
  let momentum := d.momentum.getD 0
  let position := d.position.getD 0
  let position_limit := d.position_limit.getD 3
  let current_price := d.price.getD 0
  let current_pnl := d.pnl.getD 0
  let params := shared.strategy_params
  let dtv := determine_trade_volume tanh forecast momentum position
    position_limit conn_id now params shared
  let trade_volume := dtv.1
  let shared1 := dtv.2
  let last_pnl := cp.last_pnl
  let pnl_change := current_pnl - last_pnl
  let cp1 := { cp with last_pnl := current_pnl }
  let shared2 :=
    if cp1.trades_made > 0 then
      { shared1 with
          performance_history :=
            dequeAppend HISTORY_SIZE shared1.performance_history
              { conn_id := conn_id
                timestamp := now
                momentum := momentum
                forecast := forecast
                position := position
                trade_volume := trade_volume
                pnl_change := pnl_change
                price := current_price
                total_pnl := current_pnl } }
    else shared1
  let sent := if trade_volume ≠ 0 then [OutMessage.trade trade_volume] else []
  let cp2 :=
    if trade_volume ≠ 0 then { cp1 with trades_made := cp1.trades_made + 1 }
    else cp1
  let shared3 := optimize_strategy now shared2
  (cp2, shared3, sent)

/-!
Interleaving model for the `asyncio.Lock` protecting `strategy_params`.

Two tasks race on the parameter dictionary: an optimizer task that, inside
`async with shared_state.lock`, performs the three field assignments of an
optimization pass (lines 157-166: `momentum_weight`, `forecast_weight`,
`aggressive_factor`, written in that order), and a session worker that, inside
the same lock, copies the dictionary field by field (line 216,
`dict(shared_state.strategy_params)`; insertion order `momentum_weight`,
`forecast_weight`, `strong_momentum_threshold`, `medium_momentum_threshold`,
`aggressive_factor`). Each field access is a separate micro-step, so without
the lock a torn read would be expressible; the theorems show the lock protocol
rules it out for every schedule.
-/

/-- The two racing tasks. -/
inductive Tid where
  | opt
  | rd
  deriving DecidableEq

/-- Program counter of the optimizer task: acquire the lock, perform the three
writes of an optimization pass, release. -/
inductive OptPC where
  | idle
  | w1
  | w2
  | w3
  | unlock
  | done
  deriving DecidableEq

/-- Program counter of the snapshotting worker: acquire the lock, copy the
five parameter fields one by one, release. -/
inductive RdPC where
  | idle
  | r1
  | r2
  | r3
  | r4
  | r5
  | unlock
  | done
  deriving DecidableEq

/-- The worker's partially built copy of the parameter dictionary. -/
structure Snap where
  momentum_weight : Option ℚ
  forecast_weight : Option ℚ
  strong_momentum_threshold : Option ℚ
  medium_momentum_threshold : Option ℚ
  aggressive_factor : Option ℚ
  deriving DecidableEq

/-- The empty snapshot (no field copied yet). -/
def emptySnap : Snap :=
  { momentum_weight := none
    forecast_weight := none
    strong_momentum_threshold := none
    medium_momentum_threshold := none
    aggressive_factor := none }

/-- A completed copy of a parameter set. -/
def fullSnap (p : StrategyParams) : Snap :=
  { momentum_weight := some p.momentum_weight
    forecast_weight := some p.forecast_weight
    strong_momentum_threshold := some p.strong_momentum_threshold
    medium_momentum_threshold := some p.medium_momentum_threshold
    aggressive_factor := some p.aggressive_factor }

/-- The parameter set after a whole optimization pass writing the weights
`mNew`, `fNew` and the factor `aNew` (the two thresholds are never written). -/
def applyOptimization (p : StrategyParams) (mNew fNew aNew : ℚ) :
    StrategyParams :=
  { p with
      momentum_weight := mNew
      forecast_weight := fNew
      aggressive_factor := aNew }

/-- Global state of the two-task system: the parameter fields, who holds the
lock, both program counters, the worker's snapshot so far. -/
structure LockSys where
  params : StrategyParams
  lock : Option Tid
  optPC : OptPC
  rdPC : RdPC
  snap : Snap
  deriving DecidableEq

/-- Initial state: parameters `p0`, lock free, both tasks before their
critical sections. -/
def lockInit (p0 : StrategyParams) : LockSys :=
  { params := p0
    lock := none
    optPC := OptPC.idle
    rdPC := RdPC.idle
    snap := emptySnap }

/-- One micro-step of the scheduled task `t`. A task at `idle` acquires the
lock only if it is free (otherwise it stays blocked and the state is
unchanged); inside the critical section each field access is one step. -/
def lockStep (mNew fNew aNew : ℚ) (t : Tid) (s : LockSys) : LockSys :=
  match t with
  | Tid.opt =>
    match s.optPC with
    | OptPC.idle =>
        if s.lock = none then
          { s with lock := some Tid.opt, optPC := OptPC.w1 }
        else s
    | OptPC.w1 =>
        { s with params := { s.params with momentum_weight := mNew }
                 optPC := OptPC.w2 }
    | OptPC.w2 =>
        { s with params := { s.params with forecast_weight := fNew }
                 optPC := OptPC.w3 }
    | OptPC.w3 =>
        { s with params := { s.params with aggressive_factor := aNew }
                 optPC := OptPC.unlock }
    | OptPC.unlock =>
        { s with lock := none, optPC := OptPC.done }
    | OptPC.done => s
  | Tid.rd =>
    match s.rdPC with
    | RdPC.idle =>
        if s.lock = none then
          { s with lock := some Tid.rd, rdPC := RdPC.r1 }
        else s
    | RdPC.r1 =>
        { s with snap := { s.snap with
                   momentum_weight := some s.params.momentum_weight }
                 rdPC := RdPC.r2 }
    | RdPC.r2 =>
        { s with snap := { s.snap with
                   forecast_weight := some s.params.forecast_weight }
                 rdPC := RdPC.r3 }
    | RdPC.r3 =>
        { s with snap := { s.snap with
                   strong_momentum_threshold :=
                     some s.params.strong_momentum_threshold }
                 rdPC := RdPC.r4 }
    | RdPC.r4 =>
        { s with snap := { s.snap with
                   medium_momentum_threshold :=
                     some s.params.medium_momentum_threshold }
                 rdPC := RdPC.r5 }
    | RdPC.r5 =>
        { s with snap := { s.snap with
                   aggressive_factor := some s.params.aggressive_factor }
                 rdPC := RdPC.unlock }
    | RdPC.unlock =>
        { s with lock := none, rdPC := RdPC.done }
    | RdPC.done => s

/-- Run a whole schedule (a list of task choices) from a state. -/
def lockRun (mNew fNew aNew : ℚ) (sched : List Tid) (s : LockSys) : LockSys :=
  sched.foldl (fun st t => lockStep mNew fNew aNew t st) s

/-- C1: for every positionLimit L > 0, every position p with -L ≤ p ≤ L, every
forecast, momentum and parameter snapshot (and every possible value of
`np.tanh`), the trade volume returned by `determine_trade_volume` keeps
p + v inside [-L, L]. -/
theorem C1_trade_volume_respects_position_limit (tanh : ℚ → ℚ)
    (forecast momentum : ℚ) (position position_limit : ℤ) (conn_id : ℕ)
    (now : ℚ) (params : StrategyParams) (shared : SharedState)
    (hL : 0 < position_limit) (hlo : -position_limit ≤ position)
    (hhi : position ≤ position_limit) :
    -position_limit ≤ position + (determine_trade_volume tanh forecast momentum
        position position_limit conn_id now params shared).1 ∧
    position + (determine_trade_volume tanh forecast momentum position
        position_limit conn_id now params shared).1 ≤ position_limit := by
  simp only [determine_trade_volume]
  split_ifs with h1 h2 <;>
    [skip; skip; omega] <;>
  · generalize py_round _ = r
    omega

/-- Witness for C1 at a concrete input. -/
theorem C1_witness :
    ((0 : ℤ) < 3 ∧ -(3 : ℤ) ≤ 0 ∧ (0 : ℤ) ≤ 3) ∧
    (-(3 : ℤ) ≤ 0 + (determine_trade_volume (fun q => q) 1 0 0 3 0 0
        (SharedState.init 0).strategy_params (SharedState.init 0)).1 ∧
      0 + (determine_trade_volume (fun q => q) 1 0 0 3 0 0
        (SharedState.init 0).strategy_params (SharedState.init 0)).1 ≤ 3) :=
  ⟨by decide,
    C1_trade_volume_respects_position_limit (fun q => q) 1 0 0 3 0 0
      (SharedState.init 0).strategy_params (SharedState.init 0)
      (by decide) (by decide) (by decide)⟩

/-- C3: with fewer than 5 performance records, or before the optimization
interval has elapsed, `optimize_strategy` changes nothing at all. -/
theorem C3_optimizer_guard_noop (t : ℚ) (s : SharedState)
    (h : s.performance_history.length < 5 ∨
      t - s.last_optimization < s.optimization_interval) :
    optimize_strategy t s = s := by
  unfold optimize_strategy
  rw [if_pos (by tauto)]

/-- Witness for C3: on the freshly initialized state (empty history) a run is
the identity. -/
theorem C3_witness :
    (SharedState.init 0).performance_history.length < 5 ∧
    optimize_strategy 100 (SharedState.init 0) = SharedState.init 0 :=
  ⟨by decide,
    C3_optimizer_guard_noop 100 (SharedState.init 0) (Or.inl (by decide))⟩

set_option maxHeartbeats 1000000 in
/-- Helper: one `optimize_strategy` run keeps `aggressive_factor` in [1, 2]. -/
theorem optimize_aggressive_bounds (t : ℚ) (s : SharedState)
    (h1 : 1 ≤ s.strategy_params.aggressive_factor)
    (h2 : s.strategy_params.aggressive_factor ≤ 2) :
    1 ≤ (optimize_strategy t s).strategy_params.aggressive_factor ∧
    (optimize_strategy t s).strategy_params.aggressive_factor ≤ 2 := by
  simp only [optimize_strategy]
  split_ifs <;>
  first
    | exact ⟨h1, h2⟩
    | exact ⟨le_min (by norm_num) (by linarith), min_le_left _ _⟩
    | exact ⟨le_max_left _ _, max_le (by norm_num) (by linarith)⟩

/-- A finite sequence of optimizer runs: before each run the environment may
have appended arbitrary performance records (here: replaced the history
wholesale, which subsumes any append pattern), then `optimize_strategy` runs
at that step's time. No other code ever writes `strategy_params`. -/
def run_sequence (steps : List (ℚ × List PerformanceRecord))
    (s : SharedState) : SharedState :=
  steps.foldl
    (fun st step =>
      optimize_strategy step.1 { st with performance_history := step.2 }) s

/-- C4: starting from the initial parameters (aggressive_factor = 1.5), after
any finite sequence of optimizer runs the aggressive factor lies in [1, 2]. -/
theorem C4_aggressive_factor_in_range (t0 : ℚ)
    (steps : List (ℚ × List PerformanceRecord)) :
    1 ≤ (run_sequence steps (SharedState.init t0)).strategy_params.aggressive_factor ∧
    (run_sequence steps (SharedState.init t0)).strategy_params.aggressive_factor ≤ 2 := by
  have main : ∀ (l : List (ℚ × List PerformanceRecord)) (s : SharedState),
      1 ≤ s.strategy_params.aggressive_factor →
      s.strategy_params.aggressive_factor ≤ 2 →
      1 ≤ (run_sequence l s).strategy_params.aggressive_factor ∧
        (run_sequence l s).strategy_params.aggressive_factor ≤ 2 := by
    intro l
    induction l with
    | nil => intro s h1 h2; exact ⟨h1, h2⟩
    | cons hd tl ih =>
        intro s h1 h2
        have hstep := optimize_aggressive_bounds hd.1
          { s with performance_history := hd.2 } h1 h2
        simpa [run_sequence] using
          ih (optimize_strategy hd.1 { s with performance_history := hd.2 })
            hstep.1 hstep.2
  exact main steps (SharedState.init t0)
    (by norm_num [SharedState.init]) (by norm_num [SharedState.init])

/-- C5: when both guards pass and the mean pnl_change is strictly below -5,
the run sets both weights to exactly 0.5 and lowers the aggressive factor by
0.2, floored at 1. -/
theorem C5_reset_branch (t : ℚ) (s : SharedState)
    (hguard : ¬ t - s.last_optimization < s.optimization_interval)
    (hlen : 5 ≤ s.performance_history.length)
    (havg : statisticsMean
        (s.performance_history.map (fun p => p.pnl_change)) < -5) :
    (optimize_strategy t s).strategy_params.momentum_weight = 0.5 ∧
    (optimize_strategy t s).strategy_params.forecast_weight = 0.5 ∧
    (optimize_strategy t s).strategy_params.aggressive_factor =
      max 1 (s.strategy_params.aggressive_factor - 0.2) := by
  have hnotor : ¬ (t - s.last_optimization < s.optimization_interval ∨
      s.performance_history.length < 5) :=
    not_or.mpr ⟨hguard, by omega⟩
  have hne : s.performance_history.isEmpty = false := by
    cases hp : s.performance_history with
    | nil => rw [hp] at hlen; simp at hlen
    | cons a l => simp
  have hnotgt : ¬ statisticsMean
      (s.performance_history.map (fun p => p.pnl_change)) > 5 := by linarith
  simp only [optimize_strategy, hnotor, if_false, hne, Bool.false_eq_true,
    hnotgt, havg, if_true]
  exact ⟨trivial, trivial, trivial⟩

/-- Witness for C5: five records of pnl_change -10 each force the reset
branch. -/
theorem C5_witness :
    (optimize_strategy 30
        { SharedState.init 0 with
            performance_history :=
              List.replicate 5
                { conn_id := 0, timestamp := 0, momentum := 0, forecast := 0,
                  position := 0, trade_volume := 0, pnl_change := -10,
                  price := 0, total_pnl := 0 } }).strategy_params.momentum_weight
      = 0.5 :=
  (C5_reset_branch 30
    { SharedState.init 0 with
        performance_history :=
          List.replicate 5
            { conn_id := 0, timestamp := 0, momentum := 0, forecast := 0,
              position := 0, trade_volume := 0, pnl_change := -10,
              price := 0, total_pnl := 0 } }
    (by norm_num [SharedState.init]) (by simp)
    (by simp [statisticsMean, List.sum_replicate]; norm_num)).1

/-- C6: in the reinforcement branch, when no record has both nonzero trade
volume and positive pnl_change, no credits are collected and both weights are
left unchanged (no division happens). -/
theorem C6_zero_credit_weights_unchanged (t : ℚ) (s : SharedState)
    (hguard : ¬ t - s.last_optimization < s.optimization_interval)
    (hlen : 5 ≤ s.performance_history.length)
    (havg : statisticsMean
        (s.performance_history.map (fun p => p.pnl_change)) > 5)
    (hnone : ∀ p ∈ s.performance_history,
        ¬ (p.pnl_change > 0 ∧ p.trade_volume ≠ 0)) :
    (optimize_strategy t s).strategy_params.momentum_weight =
      s.strategy_params.momentum_weight ∧
    (optimize_strategy t s).strategy_params.forecast_weight =
      s.strategy_params.forecast_weight := by
  have hnotor : ¬ (t - s.last_optimization < s.optimization_interval ∨
      s.performance_history.length < 5) :=
    not_or.mpr ⟨hguard, by omega⟩
  have hne : s.performance_history.isEmpty = false := by
    cases hp : s.performance_history with
    | nil => rw [hp] at hlen; simp at hlen
    | cons a l => simp
  have hfilter : s.performance_history.filter
      (fun p => p.pnl_change > 0 ∧ p.trade_volume ≠ 0) = [] := by
    rw [List.filter_eq_nil_iff]
    intro p hp
    simpa using hnone p hp
  simp only [optimize_strategy, hnotor, if_false, hne, Bool.false_eq_true,
    havg, if_true, hfilter, List.map_nil, ne_eq, not_true_eq_false,
    false_and, and_false]
  exact ⟨trivial, trivial⟩

/-- Witness for C6: mean pnl_change is 10 > 5 but every record has zero trade
volume, so weights stay at their defaults. -/
theorem C6_witness :
    (optimize_strategy 30
        { SharedState.init 0 with
            performance_history :=
              List.replicate 5
                { conn_id := 0, timestamp := 0, momentum := 0, forecast := 0,
                  position := 0, trade_volume := 0, pnl_change := 10,
                  price := 0, total_pnl := 0 } }).strategy_params.momentum_weight
      = 0.6 :=
  (C6_zero_credit_weights_unchanged 30
    { SharedState.init 0 with
        performance_history :=
          List.replicate 5
            { conn_id := 0, timestamp := 0, momentum := 0, forecast := 0,
              position := 0, trade_volume := 0, pnl_change := 10,
              price := 0, total_pnl := 0 } }
    (by norm_num [SharedState.init]) (by simp)
    (by simp [statisticsMean, List.sum_replicate]; norm_num)
    (by intro p hp; rw [List.eq_of_mem_replicate hp]; simp)).1

/-- Helper: `handle_puzzle_impact` returns the impact field itself (default
0): the three branches all return `impact` or 0 when it is 0. -/
theorem handle_puzzle_impact_eq (d : EnvData) :
    handle_puzzle_impact d = d.impact.getD 0 := by
  simp only [handle_puzzle_impact]
  split_ifs <;> omega

/-- C7: a puzzle event sends a trade of +3 for positive impact, -3 for
negative impact, nothing for zero or absent impact, and in all cases the skip
command is the last message sent. -/
theorem C7_puzzle_trade_and_skip (d : EnvData) :
    (0 < d.impact.getD 0 →
      handle_puzzle d = [OutMessage.trade 3, OutMessage.skipCmd]) ∧
    (d.impact.getD 0 < 0 →
      handle_puzzle d = [OutMessage.trade (-3), OutMessage.skipCmd]) ∧
    (d.impact.getD 0 = 0 → handle_puzzle d = [OutMessage.skipCmd]) ∧
    (handle_puzzle d).getLast? = some OutMessage.skipCmd := by
  refine ⟨?_, ?_, ?_, ?_⟩
  · intro h
    have h1 : d.impact.getD 0 ≠ 0 := by omega
    simp [handle_puzzle, handle_puzzle_impact_eq, h1, h]
  · intro h
    have h1 : d.impact.getD 0 ≠ 0 := by omega
    have h2 : ¬ 0 < d.impact.getD 0 := by omega
    simp [handle_puzzle, handle_puzzle_impact_eq, h1, h2]
  · intro h
    simp [handle_puzzle, handle_puzzle_impact_eq, h]
  · simp [handle_puzzle, List.getLast?_concat]

/-- A concrete puzzle payload with impact -7 (the spec's scenario). -/
def puzzleNeg7 : EnvData :=
  { player_id := none, price_forecast := none, momentum := none,
    position := none, position_limit := none, price := none, pnl := none,
    impact := some (-7) }

/-- Witness for C7 at impact -7: a sell of magnitude 3 then the skip. -/
theorem C7_witness :
    handle_puzzle puzzleNeg7 = [OutMessage.trade (-3), OutMessage.skipCmd] :=
  (C7_puzzle_trade_and_skip puzzleNeg7).2.1 (by decide)

/-- C10: the puzzle trade is a fixed ±3, taking no account of position or
position limit; at position = positionLimit a positive-impact puzzle trade
overshoots the limit, and at position = -positionLimit a negative-impact one
undershoots it. -/
theorem C10_puzzle_trade_unclamped (d : EnvData)
    (himp : d.impact.getD 0 ≠ 0) :
    sent_trade_volumes (handle_puzzle d) =
      [if 0 < d.impact.getD 0 then 3 else -3] ∧
    (0 < d.impact.getD 0 → ∀ position_limit : ℤ, 0 < position_limit →
      ∀ v ∈ sent_trade_volumes (handle_puzzle d),
        ¬ position_limit + v ≤ position_limit) ∧
    (d.impact.getD 0 < 0 → ∀ position_limit : ℤ, 0 < position_limit →
      ∀ v ∈ sent_trade_volumes (handle_puzzle d),
        ¬ -position_limit ≤ -position_limit + v) := by
  have hmain : sent_trade_volumes (handle_puzzle d) =
      [if 0 < d.impact.getD 0 then 3 else -3] := by
    simp [handle_puzzle, handle_puzzle_impact_eq, himp, sent_trade_volumes]
  refine ⟨hmain, ?_, ?_⟩
  · intro hpos L hL v hv
    rw [hmain] at hv
    simp [hpos] at hv
    omega
  · intro hneg L hL v hv
    rw [hmain] at hv
    have h2 : ¬ 0 < d.impact.getD 0 := by omega
    simp [h2] at hv
    omega

/-- A concrete puzzle payload with impact +5. -/
def puzzlePos5 : EnvData :=
  { player_id := none, price_forecast := none, momentum := none,
    position := none, position_limit := none, price := none, pnl := none,
    impact := some 5 }

/-- Witness for C10 at impact +5 and positionLimit 3: the sent volume is 3
and, from position 3, executing it leaves [-3, 3]. -/
theorem C10_witness :
    sent_trade_volumes (handle_puzzle puzzlePos5) = [(3 : ℤ)] ∧
    ¬ (3 : ℤ) + 3 ≤ 3 :=
  ⟨by simpa using (C10_puzzle_trade_unclamped puzzlePos5 (by decide)).1,
    (C10_puzzle_trade_unclamped puzzlePos5 (by decide)).2.1 (by decide) 3
      (by decide) 3
      (by simpa using (C10_puzzle_trade_unclamped puzzlePos5 (by decide)).1 ▸
        List.mem_singleton.mpr rfl)⟩

/-- C2 counterexample: an envelope with event "end" and a data object matches
no branch of the receive loop, so it is not treated as game over. -/
theorem C2_counterexample : dispatch "end" true ≠ Handler.gameEnd := by decide

/-- C2 (amended): only envelopes whose event is "finish" (with data present)
are treated as game over; the finish branch records `data.get("pnl", 0)` as
the final PnL and leaves the receive loop towards reconnection; an "end"
envelope matches no branch and is ignored. -/
theorem C2_finish_event_terminates :
    (∀ has_data : Bool, dispatch "finish" has_data =
      if has_data then Handler.gameEnd else Handler.ignored) ∧
    (∀ has_data : Bool, dispatch "end" has_data = Handler.ignored) ∧
    (∀ d : EnvData, handle_finish d = LoopResult.terminate (d.pnl.getD 0)) := by
  refine ⟨?_, ?_, ?_⟩
  · intro b
    cases b <;> decide
  · intro b
    cases b <;> decide
  · intro d
    rfl

/-- Helper: `determine_trade_volume` only appends to `trade_history`; the
performance history is untouched. -/
theorem determine_performance_history_eq (tanh : ℚ → ℚ)
    (forecast momentum : ℚ) (position position_limit : ℤ) (conn_id : ℕ)
    (now : ℚ) (params : StrategyParams) (shared : SharedState) :
    (determine_trade_volume tanh forecast momentum position position_limit
      conn_id now params shared).2.performance_history
      = shared.performance_history := rfl

set_option maxHeartbeats 1000000 in
/-- Helper: `optimize_strategy` never writes the performance history. -/
theorem optimize_performance_history_eq (t : ℚ) (s : SharedState) :
    (optimize_strategy t s).performance_history = s.performance_history := by
  simp only [optimize_strategy]
  split_ifs <;> rfl

/-- C8: the state-event branch appends a performance record only when the
connection already has a baseline (`trades_made > 0` before this event's
trade), never on the very first trade; and it updates `last_pnl` to the
event's pnl on every state event. -/
theorem C8_baseline_gates_performance_append (tanh : ℚ → ℚ) (now : ℚ)
    (conn_id : ℕ) (d : EnvData) (cp : ConnPerf) (shared : SharedState) :
    (cp.trades_made = 0 →
      (handle_state_event tanh now conn_id d cp shared).2.1.performance_history
        = shared.performance_history) ∧
    (handle_state_event tanh now conn_id d cp shared).1.last_pnl
      = d.pnl.getD 0 := by
  constructor
  · intro h0
    simp only [handle_state_event, optimize_performance_history_eq, h0,
      gt_iff_lt, lt_self_iff_false, if_false,
      determine_performance_history_eq]
  · simp only [handle_state_event]
    split_ifs <;> rfl

/-- A concrete state payload carrying only a pnl of 7. -/
def stateDataPnl7 : EnvData :=
  { player_id := none, price_forecast := none, momentum := none,
    position := none, position_limit := none, price := none, pnl := some 7,
    impact := none }

/-- Witness for C8: with no trade made yet, the state event appends nothing
but moves the baseline to 7. -/
theorem C8_witness :
    (handle_state_event (fun q => q) 0 0 stateDataPnl7 ⟨0, 0, 0⟩
        (SharedState.init 0)).2.1.performance_history = [] ∧
    (handle_state_event (fun q => q) 0 0 stateDataPnl7 ⟨0, 0, 0⟩
        (SharedState.init 0)).1.last_pnl = 7 :=
  ⟨(C8_baseline_gates_performance_append (fun q => q) 0 0 stateDataPnl7
      ⟨0, 0, 0⟩ (SharedState.init 0)).1 rfl,
    (C8_baseline_gates_performance_append (fun q => q) 0 0 stateDataPnl7
      ⟨0, 0, 0⟩ (SharedState.init 0)).2⟩

/-- Whether the optimizer task is inside its critical section. -/
def optHolds : OptPC → Bool
  | OptPC.w1 | OptPC.w2 | OptPC.w3 | OptPC.unlock => true
  | _ => false

/-- Whether the snapshotting worker is inside its critical section. -/
def rdHolds : RdPC → Bool
  | RdPC.r1 | RdPC.r2 | RdPC.r3 | RdPC.r4 | RdPC.r5 | RdPC.unlock => true
  | _ => false

/-- The parameter fields as a function of how far the optimizer has got. -/
def paramsAt (p0 : StrategyParams) (mNew fNew aNew : ℚ) :
    OptPC → StrategyParams
  | OptPC.idle | OptPC.w1 => p0
  | OptPC.w2 => { p0 with momentum_weight := mNew }
  | OptPC.w3 => { p0 with momentum_weight := mNew, forecast_weight := fNew }
  | OptPC.unlock | OptPC.done => applyOptimization p0 mNew fNew aNew

/-- What the worker's snapshot must look like at each of its program points:
while copying, the fields copied so far agree with the current parameters;
once finished, the copy is a complete untorn parameter set. -/
def snapOK (p0 pNew cur : StrategyParams) : RdPC → Snap → Prop
  | RdPC.idle, sn => sn = emptySnap
  | RdPC.r1, sn => sn = emptySnap
  | RdPC.r2, sn =>
      sn = { emptySnap with momentum_weight := some cur.momentum_weight }
  | RdPC.r3, sn =>
      sn = { emptySnap with
               momentum_weight := some cur.momentum_weight
               forecast_weight := some cur.forecast_weight }
  | RdPC.r4, sn =>
      sn = { emptySnap with
               momentum_weight := some cur.momentum_weight
               forecast_weight := some cur.forecast_weight
               strong_momentum_threshold :=
                 some cur.strong_momentum_threshold }
  | RdPC.r5, sn => sn = { fullSnap cur with aggressive_factor := none }
  | RdPC.unlock, sn => sn = fullSnap cur
  | RdPC.done, sn => sn = fullSnap p0 ∨ sn = fullSnap pNew

/-- Inductive invariant of the two-task system: the lock is held exactly by
the task whose program counter is inside its critical section (so never by
both), the parameter fields are determined by the optimizer's progress, and
the snapshot is consistent per `snapOK`. -/
def lockInv (p0 : StrategyParams) (mNew fNew aNew : ℚ) (s : LockSys) : Prop :=
  s.params = paramsAt p0 mNew fNew aNew s.optPC ∧
  (s.lock = some Tid.opt ↔ optHolds s.optPC = true) ∧
  (s.lock = some Tid.rd ↔ rdHolds s.rdPC = true) ∧
  snapOK p0 (applyOptimization p0 mNew fNew aNew) s.params s.rdPC s.snap

set_option maxHeartbeats 2000000 in
/-- Helper: every micro-step preserves the lock invariant. -/
theorem lockStep_inv (p0 : StrategyParams) (mNew fNew aNew : ℚ) (t : Tid)
    (s : LockSys) (h : lockInv p0 mNew fNew aNew s) :
    lockInv p0 mNew fNew aNew (lockStep mNew fNew aNew t s) := by
  obtain ⟨par, lk, opc, rpc, sn⟩ := s
  obtain ⟨hp, ho, hr, hs⟩ := h
  rcases lk with _ | t2 <;> [skip; cases t2] <;> cases t <;> cases opc <;>
    cases rpc <;>
    simp_all [lockInv, lockStep, paramsAt, optHolds, rdHolds, snapOK,
      emptySnap, fullSnap, applyOptimization]

/-- C9: for every schedule of the two tasks, once the worker has completed its
snapshot, the copy it holds is either the complete pre-optimization parameter
set or the complete post-optimization one — never a mixture. -/
theorem C9_snapshot_never_torn (p0 : StrategyParams) (mNew fNew aNew : ℚ)
    (sched : List Tid)
    (hdone : (lockRun mNew fNew aNew sched (lockInit p0)).rdPC = RdPC.done) :
    (lockRun mNew fNew aNew sched (lockInit p0)).snap = fullSnap p0 ∨
    (lockRun mNew fNew aNew sched (lockInit p0)).snap =
      fullSnap (applyOptimization p0 mNew fNew aNew) := by
  have hrun : ∀ (l : List Tid) (s : LockSys), lockInv p0 mNew fNew aNew s →
      lockInv p0 mNew fNew aNew (lockRun mNew fNew aNew l s) := by
    intro l
    induction l with
    | nil => intro s hs; exact hs
    | cons hd tl ih =>
        intro s hs
        simpa [lockRun] using ih _ (lockStep_inv p0 mNew fNew aNew hd s hs)
  have hinv := hrun sched (lockInit p0)
    (by simp [lockInv, lockInit, paramsAt, optHolds, rdHolds, snapOK])
  obtain ⟨hp, ho, hr, hs⟩ := hinv
  rw [hdone] at hs
  exact hs

/-- Witness for C9: the worker runs its whole critical section first; it
observes the complete pre-optimization parameters. -/
theorem C9_witness :
    (lockRun 0.5 0.5 1.3 (List.replicate 7 Tid.rd)
        (lockInit (SharedState.init 0).strategy_params)).rdPC = RdPC.done ∧
    ((lockRun 0.5 0.5 1.3 (List.replicate 7 Tid.rd)
        (lockInit (SharedState.init 0).strategy_params)).snap =
      fullSnap (SharedState.init 0).strategy_params ∨
    (lockRun 0.5 0.5 1.3 (List.replicate 7 Tid.rd)
        (lockInit (SharedState.init 0).strategy_params)).snap =
      fullSnap (applyOptimization (SharedState.init 0).strategy_params
        0.5 0.5 1.3)) :=
  ⟨rfl, C9_snapshot_never_torn (SharedState.init 0).strategy_params 0.5 0.5 1.3
    (List.replicate 7 Tid.rd) rfl⟩

end TradingGame
